import Mathlib

set_option autoImplicit false

/-!
Shallow embedding of the job-trigger-and-monitor protocol of
bendoan-db/databricks-workspace-tools.

Embedded source:
* `src/trigger_flow_function.py`, `trigger_databricks_flow` (validation of the
  job id, parsing/shape-checking of the six optional JSON parameter payloads,
  the remote start-run / get-run phase and the structured success / failure
  result dictionaries).
* `src/example_usage.py`, `trigger_and_monitor_job` (the status-polling loop,
  lines 341-366).

External collaborators (the Python stdlib `json` module and the Databricks SDK
`WorkspaceClient`) are injected as parameters: `json.loads` becomes a decoder
`String → Except String Json`, and the two remote endpoints become a `Backend`
record.  The list of remote calls actually issued is returned alongside the
result so that "zero remote calls" claims are directly statable.  The polling
loop is instrumented with a fuel bound (the Python loop can diverge for
non-positive `poll_interval`), and with counters for the number of status
queries and `time.sleep` calls.
-/

/-- Decoded JSON values, the result type of `json.loads`.  Numbers are
modelled as integers (no claim involves fractional JSON numbers). -/
inductive Json where
  | null : Json
  | bool (b : Bool) : Json
  | num (n : Int) : Json
  | str (s : String) : Json
  | arr (items : List Json) : Json
  | obj (fields : List (String × Json)) : Json

/-- `isinstance(x, dict)` on a decoded JSON value. -/
def Json.isObj : Json → Bool
  | .obj _ => true
  | _ => false

/-- `isinstance(x, list)` on a decoded JSON value. -/
def Json.isArr : Json → Bool
  | .arr _ => true
  | _ => false

/-- `d.get(k)` on a decoded JSON dictionary (`None` for a missing key or a
non-dictionary receiver). -/
def jsonLookup (j : Json) (k : String) : Option Json :=
  match j with
  | .obj fields => fields.lookup k
  | _ => none

/-- Top-level key list of a JSON dictionary. -/
def jsonKeys : Json → List String
  | .obj fields => fields.map Prod.fst
  | _ => []

/-- Python truthiness of an optional decoded JSON value, as used by
`if status_dict.get('success'):`. -/
def jsonTruthy : Option Json → Bool
  | none => false
  | some .null => false
  | some (.bool b) => b
  | some (.num n) => decide (n ≠ 0)
  | some (.str s) => decide (s ≠ "")
  | some (.arr items) => !items.isEmpty
  | some (.obj fields) => !fields.isEmpty

/-- A Python exception as observed by the code: its class name
(`type(e).__name__`) and its message (`str(e)`). -/
structure PyExc where
  ty : String
  msg : String
deriving DecidableEq, Repr

/-- `ValueError(msg)`. -/
def valueError (msg : String) : PyExc := ⟨"ValueError", msg⟩

/-- `json.JSONDecodeError` with message `msg`. -/
def jsonDecodeError (msg : String) : PyExc := ⟨"JSONDecodeError", msg⟩

/-- Digits-only decimal parse used by `pyInt` (`none` when empty or a
non-digit is present). -/
def decDigits (cs : List Char) : Option Nat :=
  if cs = [] then none
  else
    cs.foldl
      (fun acc c =>
        match acc with
        | none => none
        | some n => if c.isDigit then some (n * 10 + (c.toNat - '0'.toNat)) else none)
      (some 0)

/-- Models Python `str.strip()` (for ASCII whitespace): drop leading and
trailing whitespace characters. -/
def pyStrip (s : String) : String :=
  String.mk (((s.toList.dropWhile Char.isWhitespace).reverse.dropWhile
    Char.isWhitespace).reverse)

/-- Models Python `int(s)` on a decimal string: surrounding whitespace is
ignored, an optional sign is allowed, and the body must be nonempty decimal
digits (grouping underscores are not modelled; no claim uses them). -/
def pyInt (s : String) : Option Int :=
  match (pyStrip s).toList with
  | '-' :: cs => (decDigits cs).map (fun n => -(n : Int))
  | '+' :: cs => (decDigits cs).map (fun n => (n : Int))
  | cs => (decDigits cs).map (fun n => (n : Int))

/-- The message of the `ValueError` raised by Python `int(s)` on a
non-numeric string. -/
def invalidIntMsg (s : String) : String :=
  "invalid literal for int() with base 10: '" ++ s ++ "'"

/-- The six `parsed_*` locals of `trigger_databricks_flow`
(`src/trigger_flow_function.py` lines 113-118). -/
structure ParsedParams where
  parsed_notebook_params : Option Json
  parsed_python_params : Option Json
  parsed_jar_params : Option Json
  parsed_pipeline_params : Option Json
  parsed_sql_params : Option Json
  parsed_dbt_commands : Option Json

/-- Shape-error message for `notebook_params` (source line 124). -/
def notebookShapeMsg : String := "notebook_params must be a JSON object (dictionary)"

/-- Shape-error message for `python_params` (source line 129). -/
def pythonShapeMsg : String := "python_params must be a JSON array"

/-- Shape-error message for `jar_params` (source line 134). -/
def jarShapeMsg : String := "jar_params must be a JSON array"

/-- Shape-error message for `pipeline_params` (source line 139). -/
def pipelineShapeMsg : String := "pipeline_params must be a JSON object (dictionary)"

/-- Shape-error message for `sql_params` (source line 144). -/
def sqlShapeMsg : String := "sql_params must be a JSON object (dictionary)"

/-- Shape-error message for `dbt_commands` (source line 149). -/
def dbtShapeMsg : String := "dbt_commands must be a JSON array"

/-- One `if <payload>: parsed = json.loads(<payload>); if not isinstance(...)`
block of the parse phase (source lines 121-149).  `none` and the empty string
are both falsy in Python, so the payload is skipped and the parsed value stays
`None`.  A decode failure is a `json.JSONDecodeError`; a shape failure is a
plain `ValueError` carrying `shapeMsg`. -/
def checkPayload (jsonLoads : String → Except String Json) (raw : Option String)
    (expectDict : Bool) (shapeMsg : String) : Except PyExc (Option Json) :=
  match raw with
  | none => .ok none
  | some s =>
      if s = "" then .ok none
      else
        match jsonLoads s with
        | .error m => .error (jsonDecodeError m)
        | .ok v =>
            if (if expectDict then v.isObj else v.isArr) then .ok (some v)
            else .error (valueError shapeMsg)

/-- The `except json.JSONDecodeError` handler at source lines 151-152: a
decode error escaping the parse block is re-raised as
`ValueError("Invalid JSON in parameters: " + str(e))`; any other exception
(the shape `ValueError`s) propagates unchanged. -/
def wrapDecodeExc (e : PyExc) : PyExc :=
  if e.ty = "JSONDecodeError" then valueError ("Invalid JSON in parameters: " ++ e.msg)
  else e

/-- The whole parse phase of `trigger_databricks_flow` (source lines
112-152): the six payloads are decoded and shape-checked in declaration order
inside one `try`, so the first exception short-circuits the rest. -/
def parseParams (jsonLoads : String → Except String Json)
    (notebook_params python_params jar_params pipeline_params sql_params dbt_commands :
      Option String) : Except PyExc ParsedParams :=
  match
    (do
      let n ← checkPayload jsonLoads notebook_params true notebookShapeMsg
      let p ← checkPayload jsonLoads python_params false pythonShapeMsg
      let j ← checkPayload jsonLoads jar_params false jarShapeMsg
      let pl ← checkPayload jsonLoads pipeline_params true pipelineShapeMsg
      let sq ← checkPayload jsonLoads sql_params true sqlShapeMsg
      let d ← checkPayload jsonLoads dbt_commands false dbtShapeMsg
      pure (ParsedParams.mk n p j pl sq d) : Except PyExc ParsedParams)
  with
  | .error e => .error (wrapDecodeExc e)
  | .ok v => .ok v

/-- The argument record of the remote `w.jobs.run_now(...)` call (source
lines 156-165). -/
structure RunNowArgs where
  job_id : Int
  notebook_params : Option Json
  python_params : Option Json
  jar_params : Option Json
  pipeline_params : Option Json
  sql_params : Option Json
  dbt_commands : Option Json
  idempotency_token : Option String

/-- The SDK `RunNowResponse` as read by the code: `run_id` and
`number_in_job`. -/
structure RunNowResponse where
  run_id : Int
  number_in_job : Int

/-- The `state` object of an SDK run-details response: a lifecycle state
(the code reads `.life_cycle_state.value`) and an optional state message. -/
structure RunState where
  life_cycle_state : String
  state_message : Option String

/-- The SDK run-details response as read by the code
(`w.jobs.get_run(run_id)`). -/
structure RunDetails where
  state : Option RunState
  run_page_url : Option String
  start_time : Option Int

/-- The two remote endpoints the trigger function uses, injected as an
explicit handle (the source builds a process-wide `WorkspaceClient`). -/
structure Backend where
  run_now : RunNowArgs → Except PyExc RunNowResponse
  get_run : Int → Except PyExc RunDetails

/-- One observed remote call. -/
inductive RemoteCall where
  | runNow (args : RunNowArgs) : RemoteCall
  | getRun (run_id : Int) : RemoteCall

/-- Embed an optional value into JSON (`None` serializes as `null`). -/
def optJson {α : Type} (f : α → Json) : Option α → Json
  | none => Json.null
  | some a => f a

/-- The failure dictionary built at source lines 189-195. -/
def errorResult (job_id error error_type : String) : Json :=
  Json.obj
    [("success", Json.bool false),
     ("job_id", Json.str job_id),
     ("error", Json.str error),
     ("error_type", Json.str error_type),
     ("message", Json.str ("Failed to trigger job " ++ job_id ++ ": " ++ error))]

/-- The success dictionary built at source lines 172-184. -/
def successResult (job_id : String) (resp : RunNowResponse) (details : RunDetails) : Json :=
  Json.obj
    [("success", Json.bool true),
     ("run_id", Json.num resp.run_id),
     ("number_in_job", Json.num resp.number_in_job),
     ("job_id", Json.str job_id),
     ("state", Json.obj
        [("life_cycle_state", optJson (fun st => Json.str st.life_cycle_state) details.state),
         ("state_message",
            match details.state with
            | some st => optJson Json.str st.state_message
            | none => Json.null)]),
     ("run_page_url", optJson Json.str details.run_page_url),
     ("start_time", optJson Json.num details.start_time),
     ("message", Json.str
        ("Successfully triggered job " ++ job_id ++ ". Run ID: " ++ toString resp.run_id))]

/-- Assemble the `run_now` keyword arguments from the parsed payloads
(source lines 156-164). -/
def mkRunNowArgs (jid : Int) (p : ParsedParams) (idempotency_token : Option String) :
    RunNowArgs :=
  ⟨jid, p.parsed_notebook_params, p.parsed_python_params, p.parsed_jar_params,
   p.parsed_pipeline_params, p.parsed_sql_params, p.parsed_dbt_commands, idempotency_token⟩

/-- Embedding of `trigger_databricks_flow` (source lines 104-196).  The
returned pair is (result, list of remote calls issued).  `Except.error`
models an exception escaping the function (the `ValueError`s of the
validation and parse phases); `Except.ok` is the JSON string return value.
`int(job_id)` is evaluated inside the `try` of the remote phase, so its
`ValueError` is caught by `except Exception` and converted into the failure
dictionary instead of propagating. -/
def trigger_databricks_flow (jsonLoads : String → Except String Json) (w : Backend)
    (job_id : String)
    (notebook_params python_params jar_params pipeline_params sql_params dbt_commands
      idempotency_token : Option String) : Except PyExc Json × List RemoteCall :=
  if job_id = "" ∨ pyStrip job_id = "" then
    (.error (valueError "job_id is required and cannot be empty"), [])
  else
    match parseParams jsonLoads notebook_params python_params jar_params pipeline_params
        sql_params dbt_commands with
    | .error e => (.error e, [])
    | .ok parsed =>
        match pyInt job_id with
        | none => (.ok (errorResult job_id (invalidIntMsg job_id) "ValueError"), [])
        | some jid =>
            let args := mkRunNowArgs jid parsed idempotency_token
            match w.run_now args with
            | .error e => (.ok (errorResult job_id e.msg e.ty), [.runNow args])
            | .ok resp =>
                match w.get_run resp.run_id with
                | .error e =>
                    (.ok (errorResult job_id e.msg e.ty), [.runNow args, .getRun resp.run_id])
                | .ok details =>
                    (.ok (successResult job_id resp details),
                     [.runNow args, .getRun resp.run_id])

/-! ## The monitor loop of `trigger_and_monitor_job` (`src/example_usage.py` lines 341-366) -/

/-- The terminal lifecycle states checked at source line 358. -/
def terminal_states : List String := ["TERMINATED", "SKIPPED", "INTERNAL_ERROR"]

/-- `life_cycle_state in ['TERMINATED', 'SKIPPED', 'INTERNAL_ERROR']` on a
decoded JSON value: only a string equal to one of the three can match. -/
def isTerminalVal : Option Json → Bool
  | some (.str s) => terminal_states.contains s
  | _ => false

/-- `status_dict.get('state', {})` (source line 351). -/
def stateOf (d : Json) : Json := (jsonLookup d "state").getD (Json.obj [])

/-- Whether one polled status dictionary makes the loop return it: the query
reported success (source line 350) and its lifecycle state is terminal
(source line 358). -/
def queryTerminal (d : Json) : Bool :=
  jsonTruthy (jsonLookup d "success") && isTerminalVal (jsonLookup (stateOf d) "life_cycle_state")

/-- What the monitoring part of `trigger_and_monitor_job` can produce:
`status d` is `return status_dict`, `timeout` is the final `return None`
after the loop. -/
inductive MonitorResult where
  | status (d : Json) : MonitorResult
  | timeout : MonitorResult

/-- The `while elapsed < max_wait` polling loop (source lines 341-366).
`get_job_status` maps the index of a query (0-based) to the decoded status
dictionary that query returns.  The returned triple is (outcome, number of
status queries issued, number of `time.sleep` calls); the outcome is `none`
when `fuel` iterations did not suffice (the Python loop has no such bound
and simply keeps running). -/
def monitorLoop (get_job_status : Nat → Json) (poll_interval max_wait elapsed : Int)
    (queries sleeps : Nat) : Nat → Option MonitorResult × Nat × Nat
  | 0 =>
      if elapsed < max_wait then (none, queries, sleeps)
      else (some MonitorResult.timeout, queries, sleeps)
  | fuel + 1 =>
      if elapsed < max_wait then
        let d := get_job_status queries
        if queryTerminal d then (some (MonitorResult.status d), queries + 1, sleeps)
        else
          monitorLoop get_job_status poll_interval max_wait (elapsed + poll_interval)
            (queries + 1) (sleeps + 1) fuel
      else (some MonitorResult.timeout, queries, sleeps)

/-- The monitor phase entered with `elapsed = 0` (source line 341). -/
def monitorModel (get_job_status : Nat → Json) (poll_interval max_wait : Int) (fuel : Nat) :
    Option MonitorResult × Nat × Nat :=
  monitorLoop get_job_status poll_interval max_wait 0 0 0 fuel

/-! ## Concrete fixtures used to instantiate the theorems -/

/-- A decoder usable as `json.loads` on the few literals the instantiations
need; everything else is a decode error. -/
def mockJsonLoads (s : String) : Except String Json :=
  if s = "[1]" then .ok (Json.arr [Json.num 1])
  else if s = "\x7b\x7d" then .ok (Json.obj [])
  else .error "mock decode error"

/-- A backend whose two endpoints always fail with a network-style
exception. -/
def failBackend : Backend :=
  ⟨fun _ => .error ⟨"ConnectionError", "connection refused"⟩,
   fun _ => .error ⟨"ConnectionError", "connection refused"⟩⟩

/-- A backend whose start-run call succeeds with run 555 but whose get-run
call fails. -/
def getRunFailBackend : Backend :=
  ⟨fun _ => .ok ⟨555, 1⟩,
   fun _ => .error ⟨"DatabricksError", "run not found"⟩⟩

/-- Run details returned by the healthy mock backend. -/
def mockDetails : RunDetails :=
  ⟨some ⟨"PENDING", some "starting"⟩, some "https://host/run/555", some 1700000⟩

/-- A backend where both remote calls succeed. -/
def okBackend : Backend :=
  ⟨fun _ => .ok ⟨555, 1⟩, fun _ => .ok mockDetails⟩

/-- A status dictionary as returned by a successful `get_job_status` query. -/
def mkStatus (success : Bool) (lcs : String) : Json :=
  Json.obj
    [("success", Json.bool success),
     ("state", Json.obj [("life_cycle_state", Json.str lcs)])]

/-- A status dictionary as returned by a failed `get_job_status` query. -/
def failStatus : Json :=
  Json.obj [("success", Json.bool false), ("error", Json.str "network error")]

/-- A status stream whose first query fails and whose second reports a
terminal run. -/
def flakyStatuses : Nat → Json :=
  fun n => if n = 0 then failStatus else mkStatus true "TERMINATED"

/-- A status stream that always reports a terminated job. -/
def terminatedStatuses : Nat → Json := fun _ => mkStatus true "TERMINATED"

/-- A status stream that always reports a running job. -/
def runningStatuses : Nat → Json := fun _ => mkStatus true "RUNNING"

/-- A status stream that always reports a lifecycle state outside the
backend's documented enumeration. -/
def mysteryStatuses : Nat → Json := fun _ => mkStatus true "MYSTERY_STATE"

/-! ## Helper lemmas -/

/-- A Boolean substring test, used to state whether an error message names a
payload or a shape. -/
def hasSubstr (hay needle : String) : Bool :=
  hay.toList.tails.any (fun t => needle.toList.isPrefixOf t)

/-- An absent payload is skipped: the parsed value stays `None`. -/
theorem checkPayload_none (jsonLoads : String → Except String Json) (b : Bool) (m : String) :
    checkPayload jsonLoads none b m = .ok none := rfl

/-- A parse-phase exception propagates out of `trigger_databricks_flow` with
no remote call issued. -/
theorem trigger_parse_err {jsonLoads : String → Except String Json} {w : Backend}
    {job_id : String} {np pp jp plp sp dc tok : Option String} {e : PyExc}
    (hid : ¬ (job_id = "" ∨ pyStrip job_id = ""))
    (h : parseParams jsonLoads np pp jp plp sp dc = .error e) :
    trigger_databricks_flow jsonLoads w job_id np pp jp plp sp dc tok = (.error e, []) := by
  unfold trigger_databricks_flow
  rw [if_neg hid, h]

/-- A present, nonempty payload that fails to decode raises
`json.JSONDecodeError`. -/
theorem checkPayload_decode_err {jsonLoads : String → Except String Json} {s : String}
    {m : String} {b : Bool} {msg : String}
    (hs : s ≠ "") (hd : jsonLoads s = .error m) :
    checkPayload jsonLoads (some s) b msg = .error (jsonDecodeError m) := by
  simp [checkPayload, hs, hd]

/-- A present, nonempty payload that decodes to the wrong shape raises the
shape `ValueError`. -/
theorem checkPayload_shape_err {jsonLoads : String → Except String Json} {s : String}
    {v : Json} {b : Bool} {msg : String}
    (hs : s ≠ "") (hd : jsonLoads s = .ok v)
    (hshape : (if b then v.isObj else v.isArr) = false) :
    checkPayload jsonLoads (some s) b msg = .error (valueError msg) := by
  simp [checkPayload, hs, hd, hshape]

/-- Parse-phase failure at the first payload. -/
theorem parseParams_err1 {jsonLoads : String → Except String Json}
    {np pp jp plp sp dc : Option String} {e : PyExc}
    (h1 : checkPayload jsonLoads np true notebookShapeMsg = .error e) :
    parseParams jsonLoads np pp jp plp sp dc = .error (wrapDecodeExc e) := by
  unfold parseParams
  rw [h1]
  rfl

/-- Parse-phase failure at the second payload. -/
theorem parseParams_err2 {jsonLoads : String → Except String Json}
    {np pp jp plp sp dc : Option String} {vn : Option Json} {e : PyExc}
    (h1 : checkPayload jsonLoads np true notebookShapeMsg = .ok vn)
    (h2 : checkPayload jsonLoads pp false pythonShapeMsg = .error e) :
    parseParams jsonLoads np pp jp plp sp dc = .error (wrapDecodeExc e) := by
  unfold parseParams
  rw [h1, h2]
  rfl

/-- Parse-phase failure at the third payload. -/
theorem parseParams_err3 {jsonLoads : String → Except String Json}
    {np pp jp plp sp dc : Option String} {vn vp : Option Json} {e : PyExc}
    (h1 : checkPayload jsonLoads np true notebookShapeMsg = .ok vn)
    (h2 : checkPayload jsonLoads pp false pythonShapeMsg = .ok vp)
    (h3 : checkPayload jsonLoads jp false jarShapeMsg = .error e) :
    parseParams jsonLoads np pp jp plp sp dc = .error (wrapDecodeExc e) := by
  unfold parseParams
  rw [h1, h2, h3]
  rfl

/-- Parse-phase failure at the fourth payload. -/
theorem parseParams_err4 {jsonLoads : String → Except String Json}
    {np pp jp plp sp dc : Option String} {vn vp vj : Option Json} {e : PyExc}
    (h1 : checkPayload jsonLoads np true notebookShapeMsg = .ok vn)
    (h2 : checkPayload jsonLoads pp false pythonShapeMsg = .ok vp)
    (h3 : checkPayload jsonLoads jp false jarShapeMsg = .ok vj)
    (h4 : checkPayload jsonLoads plp true pipelineShapeMsg = .error e) :
    parseParams jsonLoads np pp jp plp sp dc = .error (wrapDecodeExc e) := by
  unfold parseParams
  rw [h1, h2, h3, h4]
  rfl

/-- Parse-phase failure at the fifth payload. -/
theorem parseParams_err5 {jsonLoads : String → Except String Json}
    {np pp jp plp sp dc : Option String} {vn vp vj vpl : Option Json} {e : PyExc}
    (h1 : checkPayload jsonLoads np true notebookShapeMsg = .ok vn)
    (h2 : checkPayload jsonLoads pp false pythonShapeMsg = .ok vp)
    (h3 : checkPayload jsonLoads jp false jarShapeMsg = .ok vj)
    (h4 : checkPayload jsonLoads plp true pipelineShapeMsg = .ok vpl)
    (h5 : checkPayload jsonLoads sp true sqlShapeMsg = .error e) :
    parseParams jsonLoads np pp jp plp sp dc = .error (wrapDecodeExc e) := by
  unfold parseParams
  rw [h1, h2, h3, h4, h5]
  rfl

/-- Parse-phase failure at the sixth payload. -/
theorem parseParams_err6 {jsonLoads : String → Except String Json}
    {np pp jp plp sp dc : Option String} {vn vp vj vpl vs : Option Json} {e : PyExc}
    (h1 : checkPayload jsonLoads np true notebookShapeMsg = .ok vn)
    (h2 : checkPayload jsonLoads pp false pythonShapeMsg = .ok vp)
    (h3 : checkPayload jsonLoads jp false jarShapeMsg = .ok vj)
    (h4 : checkPayload jsonLoads plp true pipelineShapeMsg = .ok vpl)
    (h5 : checkPayload jsonLoads sp true sqlShapeMsg = .ok vs)
    (h6 : checkPayload jsonLoads dc false dbtShapeMsg = .error e) :
    parseParams jsonLoads np pp jp plp sp dc = .error (wrapDecodeExc e) := by
  unfold parseParams
  rw [h1, h2, h3, h4, h5, h6]
  rfl

/-- Parse phase success from six successful payload checks. -/
theorem parseParams_ok {jsonLoads : String → Except String Json}
    {np pp jp plp sp dc : Option String} {vn vp vj vpl vs vd : Option Json}
    (h1 : checkPayload jsonLoads np true notebookShapeMsg = .ok vn)
    (h2 : checkPayload jsonLoads pp false pythonShapeMsg = .ok vp)
    (h3 : checkPayload jsonLoads jp false jarShapeMsg = .ok vj)
    (h4 : checkPayload jsonLoads plp true pipelineShapeMsg = .ok vpl)
    (h5 : checkPayload jsonLoads sp true sqlShapeMsg = .ok vs)
    (h6 : checkPayload jsonLoads dc false dbtShapeMsg = .ok vd) :
    parseParams jsonLoads np pp jp plp sp dc = .ok (ParsedParams.mk vn vp vj vpl vs vd) := by
  unfold parseParams
  rw [h1, h2, h3, h4, h5, h6]
  rfl

/-- Unfolding the remote phase of `trigger_databricks_flow` once validation
and parsing have succeeded. -/
theorem trigger_remote_phase {jsonLoads : String → Except String Json} {w : Backend}
    {job_id : String} {np pp jp plp sp dc tok : Option String} {parsed : ParsedParams}
    (hid : ¬ (job_id = "" ∨ pyStrip job_id = ""))
    (hparse : parseParams jsonLoads np pp jp plp sp dc = .ok parsed) :
    trigger_databricks_flow jsonLoads w job_id np pp jp plp sp dc tok =
      (match pyInt job_id with
       | none => (.ok (errorResult job_id (invalidIntMsg job_id) "ValueError"), [])
       | some jid =>
          let args := mkRunNowArgs jid parsed tok
          match w.run_now args with
          | .error e => (.ok (errorResult job_id e.msg e.ty), [.runNow args])
          | .ok resp =>
              match w.get_run resp.run_id with
              | .error e =>
                  (.ok (errorResult job_id e.msg e.ty), [.runNow args, .getRun resp.run_id])
              | .ok details =>
                  (.ok (successResult job_id resp details),
                   [.runNow args, .getRun resp.run_id])) := by
  unfold trigger_databricks_flow
  rw [if_neg hid, hparse]

/-- One loop iteration whose status query does not end the loop: sleep, add
the interval to `elapsed`, and poll again. -/
theorem monitorLoop_step {g : Nat → Json} {p mw e : Int} {q s fuel : Nat}
    (he : e < mw) (ht : queryTerminal (g q) = false) :
    monitorLoop g p mw e q s (fuel + 1) = monitorLoop g p mw (e + p) (q + 1) (s + 1) fuel := by
  simp [monitorLoop, he, ht]

/-- One loop iteration whose status query reports a terminal run: the status
dictionary is returned at once, with no further sleep. -/
theorem monitorLoop_term {g : Nat → Json} {p mw e : Int} {q s fuel : Nat}
    (he : e < mw) (ht : queryTerminal (g q) = true) :
    monitorLoop g p mw e q s (fuel + 1) = (some (MonitorResult.status (g q)), q + 1, s) := by
  simp [monitorLoop, he, ht]

/-- Once the elapsed time reaches the budget the loop exits with `Timeout`
without querying again. -/
theorem monitorLoop_done {g : Nat → Json} {p mw e : Int} {q s : Nat} (fuel : Nat)
    (he : ¬ e < mw) :
    monitorLoop g p mw e q s fuel = (some MonitorResult.timeout, q, s) := by
  cases fuel <;> simp [monitorLoop, he]

/-- The query counter never decreases. -/
theorem monitorLoop_queries_mono (g : Nat → Json) (p mw : Int) :
    ∀ (fuel : Nat) (e : Int) (q s : Nat), q ≤ (monitorLoop g p mw e q s fuel).2.1 := by
  intro fuel
  induction fuel with
  | zero =>
      intro e q s
      by_cases he : e < mw <;> simp [monitorLoop, he]
  | succ f ih =>
      intro e q s
      by_cases he : e < mw
      · cases ht : queryTerminal (g q) with
        | true => simp [monitorLoop_term he ht]
        | false =>
            rw [monitorLoop_step he ht]
            exact le_trans (Nat.le_succ q) (ih (e + p) (q + 1) (s + 1))
      · simp [monitorLoop_done _ he]

/-- With enough fuel, a run that never reports a terminal state drives the
loop to `Timeout` after `k` queries and `k` sleeps, where the elapsed time
`k * poll_interval` has reached `max_wait`. -/
theorem monitorLoop_timeout (g : Nat → Json) (p mw : Int)
    (hnt : ∀ n, queryTerminal (g n) = false) :
    ∀ (fuel : Nat) (e : Int) (q s : Nat), mw ≤ e + (fuel : Int) * p →
      ∃ k : Nat, k ≤ fuel ∧
        monitorLoop g p mw e q s fuel = (some MonitorResult.timeout, q + k, s + k) ∧
        mw ≤ e + (k : Int) * p := by
  intro fuel
  induction fuel with
  | zero =>
      intro e q s h
      have he : ¬ e < mw := by push_cast at h; omega
      exact ⟨0, le_refl 0, by simp [monitorLoop_done _ he], by push_cast; omega⟩
  | succ f ih =>
      intro e q s h
      by_cases he : e < mw
      · have h2 : mw ≤ (e + p) + (f : Int) * p := by push_cast at h ⊢; linarith
        obtain ⟨k, hk, heq, hb⟩ := ih (e + p) (q + 1) (s + 1) h2
        refine ⟨k + 1, by omega, ?_, ?_⟩
        · rw [monitorLoop_step he (hnt q), heq]
          have hq : q + 1 + k = q + (k + 1) := by omega
          have hs : s + 1 + k = s + (k + 1) := by omega
          rw [hq, hs]
        · push_cast at hb ⊢; linarith
      · exact ⟨0, Nat.zero_le _, by simp [monitorLoop_done _ he],
          by push_cast; simpa using not_lt.mp he⟩

/-! ## Claims -/

/-- Claim C1: for every trigger call that passes validation, a remote failure
during the start-run call, or during the get-run call that follows a
successful start, is caught at the client boundary and converted into the
failure dictionary — `success:false` with the exception's message (`error`),
its type name (`error_type`) and a human-readable `message` — and this value
is returned (`Except.ok`), never raised past the function's boundary. -/
theorem trigger_remote_failure_is_returned
    (jsonLoads : String → Except String Json) (w : Backend) (job_id : String)
    (np pp jp plp sp dc tok : Option String) (parsed : ParsedParams) (jid : Int)
    (hid : ¬ (job_id = "" ∨ pyStrip job_id = ""))
    (hparse : parseParams jsonLoads np pp jp plp sp dc = .ok parsed)
    (hjid : pyInt job_id = some jid) :
    (∀ e : PyExc, w.run_now (mkRunNowArgs jid parsed tok) = .error e →
        trigger_databricks_flow jsonLoads w job_id np pp jp plp sp dc tok =
          (.ok (errorResult job_id e.msg e.ty),
           [RemoteCall.runNow (mkRunNowArgs jid parsed tok)])) ∧
    (∀ (e : PyExc) (resp : RunNowResponse),
        w.run_now (mkRunNowArgs jid parsed tok) = .ok resp →
        w.get_run resp.run_id = .error e →
        trigger_databricks_flow jsonLoads w job_id np pp jp plp sp dc tok =
          (.ok (errorResult job_id e.msg e.ty),
           [RemoteCall.runNow (mkRunNowArgs jid parsed tok),
            RemoteCall.getRun resp.run_id])) := by
  constructor
  · intro e he
    unfold trigger_databricks_flow
    rw [if_neg hid]
    simp only [hparse, hjid, he]
  · intro e resp hr hg
    unfold trigger_databricks_flow
    rw [if_neg hid]
    simp only [hparse, hjid, hr, hg]

/-- Witness for C1: against a backend whose start-run call fails with a
connection error, and against one whose get-run call fails, the trigger call
returns the structured failure value. -/
theorem trigger_remote_failure_is_returned_witness :
    trigger_databricks_flow mockJsonLoads failBackend "123" none none none none none none
        none =
      (.ok (errorResult "123" "connection refused" "ConnectionError"),
       [RemoteCall.runNow (mkRunNowArgs 123 (ParsedParams.mk none none none none none none)
          none)]) ∧
    trigger_databricks_flow mockJsonLoads getRunFailBackend "123" none none none none none
        none none =
      (.ok (errorResult "123" "run not found" "DatabricksError"),
       [RemoteCall.runNow (mkRunNowArgs 123 (ParsedParams.mk none none none none none none)
          none), RemoteCall.getRun 555]) := by
  constructor
  · exact (trigger_remote_failure_is_returned mockJsonLoads failBackend "123" none none none
      none none none none (ParsedParams.mk none none none none none none) 123 (by decide) rfl
      rfl).1 (PyExc.mk "ConnectionError" "connection refused") rfl
  · exact (trigger_remote_failure_is_returned mockJsonLoads getRunFailBackend "123" none none
      none none none none none (ParsedParams.mk none none none none none none) 123 (by decide)
      rfl rfl).2 (PyExc.mk "DatabricksError" "run not found") (RunNowResponse.mk 555 1) rfl rfl

/-- Counterexample for C2: a non-numeric job id is not raised as the same
validation error as an empty id.  `int(job_id)` is evaluated inside the
remote-phase `try`, so for `job_id = "abc"` the `ValueError` is caught and
converted into a returned `success:false` dictionary, while for the empty id
the `ValueError` propagates as a raised exception. -/
theorem trigger_nonnumeric_id_not_raised :
    trigger_databricks_flow mockJsonLoads failBackend "abc" none none none none none none
        none =
      (.ok (errorResult "abc" (invalidIntMsg "abc") "ValueError"), []) ∧
    (trigger_databricks_flow mockJsonLoads failBackend "" none none none none none none
        none).1 =
      .error (valueError "job_id is required and cannot be empty") := by
  exact ⟨rfl, rfl⟩

/-- Claim C2 (amended): an empty or whitespace-only job id raises
`ValueError("job_id is required and cannot be empty")` synchronously with
zero remote calls; a non-numeric (but non-blank) job id also issues zero
remote calls, but its `ValueError` from `int()` is caught by the remote-phase
handler and returned as a `success:false` failure dictionary with
`error_type` `"ValueError"`, rather than raised. -/
theorem trigger_invalid_job_id_paths
    (jsonLoads : String → Except String Json) (w : Backend)
    (np pp jp plp sp dc tok : Option String) :
    (∀ job_id : String, pyStrip job_id = "" →
        trigger_databricks_flow jsonLoads w job_id np pp jp plp sp dc tok =
          (.error (valueError "job_id is required and cannot be empty"), [])) ∧
    (∀ (job_id : String) (parsed : ParsedParams), pyStrip job_id ≠ "" →
        parseParams jsonLoads np pp jp plp sp dc = .ok parsed →
        pyInt job_id = none →
        trigger_databricks_flow jsonLoads w job_id np pp jp plp sp dc tok =
          (.ok (errorResult job_id (invalidIntMsg job_id) "ValueError"), [])) := by
  constructor
  · intro job_id h
    unfold trigger_databricks_flow
    rw [if_pos (Or.inr h)]
  · intro job_id parsed hne hparse hint
    have hid : ¬ (job_id = "" ∨ pyStrip job_id = "") := by
      rintro (h | h)
      · exact hne (by rw [h]; rfl)
      · exact hne h
    unfold trigger_databricks_flow
    rw [if_neg hid]
    simp only [hparse, hint]

/-- Witness for C2: a whitespace-only id raises, a non-numeric id returns a
failure value; both with zero remote calls. -/
theorem trigger_invalid_job_id_paths_witness :
    trigger_databricks_flow mockJsonLoads failBackend "   " none none none none none none
        none =
      (.error (valueError "job_id is required and cannot be empty"), []) ∧
    trigger_databricks_flow mockJsonLoads failBackend "12x" none none none none none none
        none =
      (.ok (errorResult "12x" (invalidIntMsg "12x") "ValueError"), []) := by
  constructor
  · exact (trigger_invalid_job_id_paths mockJsonLoads failBackend none none none none none
      none none).1 "   " (by decide)
  · exact (trigger_invalid_job_id_paths mockJsonLoads failBackend none none none none none
      none none).2 "12x" (ParsedParams.mk none none none none none none) (by decide) rfl rfl

/-- Claim C4: a successful trigger call issues exactly one start-run call
followed by exactly one get-run call for the returned run identifier, and
combines the two responses into the success dictionary whose top-level fields
are `success` (`true`), `run_id`, `number_in_job`, `job_id`, `state` (with
`life_cycle_state` and `state_message`), `run_page_url`, `start_time` and
`message`. -/
theorem trigger_success_sequence
    (jsonLoads : String → Except String Json) (w : Backend) (job_id : String)
    (np pp jp plp sp dc tok : Option String) (parsed : ParsedParams) (jid : Int)
    (resp : RunNowResponse) (details : RunDetails)
    (hid : ¬ (job_id = "" ∨ pyStrip job_id = ""))
    (hparse : parseParams jsonLoads np pp jp plp sp dc = .ok parsed)
    (hjid : pyInt job_id = some jid)
    (hrun : w.run_now (mkRunNowArgs jid parsed tok) = .ok resp)
    (hget : w.get_run resp.run_id = .ok details) :
    trigger_databricks_flow jsonLoads w job_id np pp jp plp sp dc tok =
      (.ok (successResult job_id resp details),
       [RemoteCall.runNow (mkRunNowArgs jid parsed tok), RemoteCall.getRun resp.run_id]) ∧
    jsonKeys (successResult job_id resp details) =
      ["success", "run_id", "number_in_job", "job_id", "state", "run_page_url", "start_time",
       "message"] ∧
    jsonLookup (successResult job_id resp details) "success" = some (Json.bool true) ∧
    jsonKeys ((jsonLookup (successResult job_id resp details) "state").getD Json.null) =
      ["life_cycle_state", "state_message"] := by
  refine ⟨?_, rfl, rfl, rfl⟩
  unfold trigger_databricks_flow
  rw [if_neg hid]
  simp only [hparse, hjid, hrun, hget]

/-- Witness for C4: a healthy backend returning run 555 yields the success
dictionary and the call sequence start-run then get-run 555. -/
theorem trigger_success_sequence_witness :
    trigger_databricks_flow mockJsonLoads okBackend "123" none none none none none none
        none =
      (.ok (successResult "123" (RunNowResponse.mk 555 1) mockDetails),
       [RemoteCall.runNow (mkRunNowArgs 123 (ParsedParams.mk none none none none none none)
          none), RemoteCall.getRun 555]) ∧
    jsonKeys (successResult "123" (RunNowResponse.mk 555 1) mockDetails) =
      ["success", "run_id", "number_in_job", "job_id", "state", "run_page_url", "start_time",
       "message"] := by
  have h := trigger_success_sequence mockJsonLoads okBackend "123" none none none none none
    none none (ParsedParams.mk none none none none none none) 123 (RunNowResponse.mk 555 1)
    mockDetails (by decide) rfl rfl rfl rfl
  exact ⟨h.1, h.2.1⟩

/-- Claim C10: a parameter payload supplied as the empty string is treated
exactly like an absent payload — the decoder is never consulted, no format or
shape error is raised, the parsed value stays `None`, and the request
forwarded to the start-run call is identical to the one built with the
payload absent. -/
theorem empty_string_payload_is_absent
    (jsonLoads : String → Except String Json) (w : Backend) (job_id : String)
    (tok : Option String) :
    (∀ (expectDict : Bool) (shapeMsg : String),
        checkPayload jsonLoads (some "") expectDict shapeMsg = .ok none) ∧
    trigger_databricks_flow jsonLoads w job_id (some "") (some "") (some "") (some "")
        (some "") (some "") tok =
      trigger_databricks_flow jsonLoads w job_id none none none none none none tok := by
  exact ⟨fun _ _ => rfl, rfl⟩

/-- Counterexample for C3: the shape error raised for an array-shaped
`notebook_params` is exactly
`"notebook_params must be a JSON object (dictionary)"`; it names the payload
and the expected shape but does not name the actual shape (neither "array"
nor "list" occurs in it), contradicting the claim that both shapes are
named. -/
theorem shape_error_omits_actual_shape :
    trigger_databricks_flow mockJsonLoads failBackend "123" (some "[1]") none none none none
        none none =
      (.error (valueError notebookShapeMsg), []) ∧
    hasSubstr notebookShapeMsg "notebook_params" = true ∧
    hasSubstr notebookShapeMsg "array" = false ∧
    hasSubstr notebookShapeMsg "list" = false := by
  exact ⟨rfl, rfl, rfl, rfl⟩

/-- Claim C3 (amended): for each of the six payloads, a present payload that
decodes to the wrong shape (a sequence where a mapping is expected for
notebook/pipeline/sql, a mapping where a sequence is expected for
python/jar/dbt) makes the trigger call raise the corresponding shape
`ValueError` — which names the payload and the expected shape, though not the
actual shape — and zero remote calls are issued. -/
theorem trigger_shape_errors_abort
    (jsonLoads : String → Except String Json) (w : Backend) (job_id : String)
    (tok : Option String) (hid : ¬ (job_id = "" ∨ pyStrip job_id = "")) :
    (∀ (s : String) (v : Json), s ≠ "" → jsonLoads s = .ok v → v.isObj = false →
        trigger_databricks_flow jsonLoads w job_id (some s) none none none none none tok =
          (.error (valueError notebookShapeMsg), [])) ∧
    (∀ (s : String) (v : Json), s ≠ "" → jsonLoads s = .ok v → v.isArr = false →
        trigger_databricks_flow jsonLoads w job_id none (some s) none none none none tok =
          (.error (valueError pythonShapeMsg), [])) ∧
    (∀ (s : String) (v : Json), s ≠ "" → jsonLoads s = .ok v → v.isArr = false →
        trigger_databricks_flow jsonLoads w job_id none none (some s) none none none tok =
          (.error (valueError jarShapeMsg), [])) ∧
    (∀ (s : String) (v : Json), s ≠ "" → jsonLoads s = .ok v → v.isObj = false →
        trigger_databricks_flow jsonLoads w job_id none none none (some s) none none tok =
          (.error (valueError pipelineShapeMsg), [])) ∧
    (∀ (s : String) (v : Json), s ≠ "" → jsonLoads s = .ok v → v.isObj = false →
        trigger_databricks_flow jsonLoads w job_id none none none none (some s) none tok =
          (.error (valueError sqlShapeMsg), [])) ∧
    (∀ (s : String) (v : Json), s ≠ "" → jsonLoads s = .ok v → v.isArr = false →
        trigger_databricks_flow jsonLoads w job_id none none none none none (some s) tok =
          (.error (valueError dbtShapeMsg), [])) := by
  refine ⟨?_, ?_, ?_, ?_, ?_, ?_⟩ <;> intro s v hs hv hshape
  · exact trigger_parse_err hid
      (parseParams_err1 (checkPayload_shape_err hs hv (by simpa using hshape)))
  · exact trigger_parse_err hid
      (parseParams_err2 (checkPayload_none _ _ _) (checkPayload_shape_err hs hv (by simpa using hshape)))
  · exact trigger_parse_err hid
      (parseParams_err3 (checkPayload_none _ _ _) (checkPayload_none _ _ _) (checkPayload_shape_err hs hv (by simpa using hshape)))
  · exact trigger_parse_err hid
      (parseParams_err4 (checkPayload_none _ _ _) (checkPayload_none _ _ _) (checkPayload_none _ _ _) (checkPayload_shape_err hs hv (by simpa using hshape)))
  · exact trigger_parse_err hid
      (parseParams_err5 (checkPayload_none _ _ _) (checkPayload_none _ _ _) (checkPayload_none _ _ _) (checkPayload_none _ _ _)
        (checkPayload_shape_err hs hv (by simpa using hshape)))
  · exact trigger_parse_err hid
      (parseParams_err6 (checkPayload_none _ _ _) (checkPayload_none _ _ _) (checkPayload_none _ _ _) (checkPayload_none _ _ _) (checkPayload_none _ _ _)
        (checkPayload_shape_err hs hv (by simpa using hshape)))

/-- Witness for C3: a mapping-shaped `python_params` raises the python shape
error with zero remote calls. -/
theorem trigger_shape_errors_abort_witness :
    trigger_databricks_flow mockJsonLoads failBackend "123" none
        (some "\x7b\x7d") none none none none none =
      (.error (valueError pythonShapeMsg), []) := by
  exact (trigger_shape_errors_abort mockJsonLoads failBackend "123" none (by decide)).2.1
    "\x7b\x7d" (Json.obj []) (by decide) rfl rfl

/-- Counterexample for C9: when the first invalid payload fails to decode
(rather than failing the shape check), the raised error message is the
generic `"Invalid JSON in parameters: ..."`, which does not name the payload.
Here `python_params` is the first invalid payload, yet the message does not
contain `"python_params"`. -/
theorem first_violation_generic_decode_message :
    trigger_databricks_flow mockJsonLoads failBackend "7" none (some "oops") (some "[1]")
        none none none none =
      (.error (valueError "Invalid JSON in parameters: mock decode error"), []) ∧
    hasSubstr "Invalid JSON in parameters: mock decode error" "python_params" = false := by
  exact ⟨rfl, rfl⟩

/-- Claim C9 (amended): parameter normalization short-circuits on the first
violation, checking the six payloads in declaration order notebook, python,
jar, pipeline, sql, dbt; when payload k is the first invalid one the raised
error is determined by payload k alone and no later payload is decoded or
checked (the result is the same for every value of the later payloads).  The
error names payload k when the violation is a shape mismatch; a decode
failure instead raises the generic `"Invalid JSON in parameters: ..."`
message, which does not name the payload. -/
theorem parse_short_circuits_in_order
    (jsonLoads : String → Except String Json) (w : Backend) (job_id : String)
    (tok : Option String) (hid : ¬ (job_id = "" ∨ pyStrip job_id = "")) :
    (∀ (np : Option String) (e : PyExc),
        checkPayload jsonLoads np true notebookShapeMsg = .error e →
        ∀ pp jp plp sp dc : Option String,
          trigger_databricks_flow jsonLoads w job_id np pp jp plp sp dc tok =
            (.error (wrapDecodeExc e), [])) ∧
    (∀ (np : Option String) (vn : Option Json) (pp : Option String) (e : PyExc),
        checkPayload jsonLoads np true notebookShapeMsg = .ok vn →
        checkPayload jsonLoads pp false pythonShapeMsg = .error e →
        ∀ jp plp sp dc : Option String,
          trigger_databricks_flow jsonLoads w job_id np pp jp plp sp dc tok =
            (.error (wrapDecodeExc e), [])) ∧
    (∀ (np : Option String) (vn : Option Json) (pp : Option String) (vp : Option Json)
        (jp : Option String) (e : PyExc),
        checkPayload jsonLoads np true notebookShapeMsg = .ok vn →
        checkPayload jsonLoads pp false pythonShapeMsg = .ok vp →
        checkPayload jsonLoads jp false jarShapeMsg = .error e →
        ∀ plp sp dc : Option String,
          trigger_databricks_flow jsonLoads w job_id np pp jp plp sp dc tok =
            (.error (wrapDecodeExc e), [])) ∧
    (∀ (np : Option String) (vn : Option Json) (pp : Option String) (vp : Option Json)
        (jp : Option String) (vj : Option Json) (plp : Option String) (e : PyExc),
        checkPayload jsonLoads np true notebookShapeMsg = .ok vn →
        checkPayload jsonLoads pp false pythonShapeMsg = .ok vp →
        checkPayload jsonLoads jp false jarShapeMsg = .ok vj →
        checkPayload jsonLoads plp true pipelineShapeMsg = .error e →
        ∀ sp dc : Option String,
          trigger_databricks_flow jsonLoads w job_id np pp jp plp sp dc tok =
            (.error (wrapDecodeExc e), [])) ∧
    (∀ (np : Option String) (vn : Option Json) (pp : Option String) (vp : Option Json)
        (jp : Option String) (vj : Option Json) (plp : Option String) (vpl : Option Json)
        (sp : Option String) (e : PyExc),
        checkPayload jsonLoads np true notebookShapeMsg = .ok vn →
        checkPayload jsonLoads pp false pythonShapeMsg = .ok vp →
        checkPayload jsonLoads jp false jarShapeMsg = .ok vj →
        checkPayload jsonLoads plp true pipelineShapeMsg = .ok vpl →
        checkPayload jsonLoads sp true sqlShapeMsg = .error e →
        ∀ dc : Option String,
          trigger_databricks_flow jsonLoads w job_id np pp jp plp sp dc tok =
            (.error (wrapDecodeExc e), [])) ∧
    (∀ (np : Option String) (vn : Option Json) (pp : Option String) (vp : Option Json)
        (jp : Option String) (vj : Option Json) (plp : Option String) (vpl : Option Json)
        (sp : Option String) (vs : Option Json) (dc : Option String) (e : PyExc),
        checkPayload jsonLoads np true notebookShapeMsg = .ok vn →
        checkPayload jsonLoads pp false pythonShapeMsg = .ok vp →
        checkPayload jsonLoads jp false jarShapeMsg = .ok vj →
        checkPayload jsonLoads plp true pipelineShapeMsg = .ok vpl →
        checkPayload jsonLoads sp true sqlShapeMsg = .ok vs →
        checkPayload jsonLoads dc false dbtShapeMsg = .error e →
        trigger_databricks_flow jsonLoads w job_id np pp jp plp sp dc tok =
          (.error (wrapDecodeExc e), [])) := by
  refine ⟨?_, ?_, ?_, ?_, ?_, ?_⟩
  · intro np e h1 pp jp plp sp dc
    exact trigger_parse_err hid (parseParams_err1 h1)
  · intro np vn pp e h1 h2 jp plp sp dc
    exact trigger_parse_err hid (parseParams_err2 h1 h2)
  · intro np vn pp vp jp e h1 h2 h3 plp sp dc
    exact trigger_parse_err hid (parseParams_err3 h1 h2 h3)
  · intro np vn pp vp jp vj plp e h1 h2 h3 h4 sp dc
    exact trigger_parse_err hid (parseParams_err4 h1 h2 h3 h4)
  · intro np vn pp vp jp vj plp vpl sp e h1 h2 h3 h4 h5 dc
    exact trigger_parse_err hid (parseParams_err5 h1 h2 h3 h4 h5)
  · intro np vn pp vp jp vj plp vpl sp vs dc e h1 h2 h3 h4 h5 h6
    exact trigger_parse_err hid (parseParams_err6 h1 h2 h3 h4 h5 h6)

/-- Witness for C9: with `python_params` the first invalid payload (a decode
failure) and a decodable `jar_params` after it, the trigger call raises the
wrapped decode error regardless of the later payloads. -/
theorem parse_short_circuits_in_order_witness :
    trigger_databricks_flow mockJsonLoads failBackend "8" none (some "oops") (some "[1]")
        none none none none =
      (.error (valueError "Invalid JSON in parameters: mock decode error"), []) := by
  exact (parse_short_circuits_in_order mockJsonLoads failBackend "8" none (by decide)).2.1
    none none (some "oops") (jsonDecodeError "mock decode error") (checkPayload_none _ _ _)
    rfl (some "[1]") none none none

/-- Counterexample for C5: the monitor loop performs no validation of
`poll_interval`/`max_wait` and raises no error.  With `max_wait = 0` it
returns `Timeout` (the `return None` path) after zero queries; with
`poll_interval = 0` and `max_wait = 5` it keeps querying without ever
failing fast (three iterations consume three fuel with no outcome). -/
theorem monitor_nonpositive_config_no_error :
    monitorModel runningStatuses 30 0 100 = (some MonitorResult.timeout, 0, 0) ∧
    monitorModel runningStatuses 0 5 3 = (none, 3, 3) := by
  exact ⟨rfl, rfl⟩

/-- Claim C5 (amended): the monitor loop does not validate `poll_interval` or
`max_wait` and no `InvalidPollConfigError` exists.  With `max_wait ≤ 0` the
loop body never runs: zero status queries are issued and `Timeout` is
returned.  With `poll_interval ≤ 0` and `0 < max_wait` against a run that
never reports terminal, the loop never terminates (no amount of fuel
produces an outcome), issuing a query on every iteration. -/
theorem monitor_no_config_validation
    (g : Nat → Json) (p mw : Int) (fuel : Nat) :
    (mw ≤ 0 → monitorModel g p mw fuel = (some MonitorResult.timeout, 0, 0)) ∧
    (p ≤ 0 → 0 < mw → (∀ n, queryTerminal (g n) = false) →
      (monitorModel g p mw fuel).1 = none) := by
  constructor
  · intro h
    exact monitorLoop_done fuel (not_lt.mpr h)
  · intro hp hmw hnt
    have key : ∀ (f : Nat) (e : Int) (q s : Nat), e < mw →
        (monitorLoop g p mw e q s f).1 = none := by
      intro f
      induction f with
      | zero => intro e q s he; simp [monitorLoop, he]
      | succ f ih =>
          intro e q s he
          rw [monitorLoop_step he (hnt q)]
          exact ih (e + p) (q + 1) (s + 1) (lt_of_le_of_lt (by linarith) he)
    exact key fuel 0 0 0 hmw

/-- Witness for C5: a negative budget returns `Timeout` with zero queries; a
zero interval with a positive budget never terminates. -/
theorem monitor_no_config_validation_witness :
    monitorModel runningStatuses 30 (-7) 4 = (some MonitorResult.timeout, 0, 0) ∧
    (monitorModel runningStatuses 0 5 2).1 = none := by
  constructor
  · exact (monitor_no_config_validation runningStatuses 30 (-7) 4).1 (by decide)
  · exact (monitor_no_config_validation runningStatuses 0 5 2).2 (le_refl 0) (by decide)
      (fun n => rfl)

/-- Counterexample for C6: a failed status query (`success:false`) is not
surfaced as an error; the loop silently sleeps and queries again.  With the
first query failing and the second reporting TERMINATED, the loop returns
the second status after 2 queries and 1 sleep — no error value exists in the
loop's result type. -/
theorem monitor_failed_query_silently_retried :
    monitorModel flakyStatuses 2 9 5 =
      (some (MonitorResult.status (mkStatus true "TERMINATED")), 2, 1) := by
  exact rfl

/-- Claim C6 (amended): a monitor iteration whose status query fails
(`success` falsy) is silently retried — the loop sleeps and queries again
rather than surfacing any error; if the next query reports a terminal run,
its status is returned after two queries and one sleep. -/
theorem monitor_failed_query_retried
    (g : Nat → Json) (p mw : Int) (fuel : Nat)
    (hp : 0 < p) (hpmw : p < mw)
    (h0 : jsonTruthy (jsonLookup (g 0) "success") = false)
    (h1 : queryTerminal (g 1) = true)
    (hfuel : 2 ≤ fuel) :
    monitorModel g p mw fuel = (some (MonitorResult.status (g 1)), 2, 1) := by
  obtain ⟨f, rfl⟩ : ∃ f, fuel = f + 2 := ⟨fuel - 2, by omega⟩
  have hmw : (0 : Int) < mw := lt_trans hp hpmw
  have hq0 : queryTerminal (g 0) = false := by
    unfold queryTerminal
    rw [h0]
    rfl
  show monitorLoop g p mw 0 0 0 ((f + 1) + 1) = _
  rw [monitorLoop_step hmw hq0, monitorLoop_term (by simpa using hpmw) h1]

/-- Witness for C6: with a first failing query and a second terminal one,
the loop returns the terminal status after 2 queries and 1 sleep. -/
theorem monitor_failed_query_retried_witness :
    monitorModel flakyStatuses 1 10 10 =
      (some (MonitorResult.status (mkStatus true "TERMINATED")), 2, 1) := by
  exact monitor_failed_query_retried flakyStatuses 1 10 10 (by decide) (by decide) rfl rfl
    (by decide)

/-- Claim C7: for every monitor call with positive `poll_interval` and
`max_wait` (and at least one iteration of fuel), at least one status query is
performed; and if the run is already terminal at the first query, that status
is returned immediately, after exactly one query and zero sleeps. -/
theorem monitor_first_query_immediate
    (g : Nat → Json) (p mw : Int) (fuel : Nat)
    (hp : 0 < p) (hmw : 0 < mw) (hfuel : 1 ≤ fuel) :
    1 ≤ (monitorModel g p mw fuel).2.1 ∧
    (queryTerminal (g 0) = true →
      monitorModel g p mw fuel = (some (MonitorResult.status (g 0)), 1, 0)) := by
  obtain ⟨f, rfl⟩ : ∃ f, fuel = f + 1 := ⟨fuel - 1, by omega⟩
  constructor
  · cases ht : queryTerminal (g 0) with
    | true =>
        have ht1 := @monitorLoop_term g p mw 0 0 0 f hmw ht
        simp [monitorModel, ht1]
    | false =>
        have step := @monitorLoop_step g p mw 0 0 0 f hmw ht
        unfold monitorModel
        rw [step]
        exact le_trans (by omega) (monitorLoop_queries_mono g p mw f (0 + p) 1 1)
  · intro ht
    unfold monitorModel
    rw [monitorLoop_term hmw ht]

/-- Witness for C7: a run already TERMINATED at the first query is returned
at once — one query, zero sleeps. -/
theorem monitor_first_query_immediate_witness :
    1 ≤ (monitorModel terminatedStatuses 30 3600 5).2.1 ∧
    monitorModel terminatedStatuses 30 3600 5 =
      (some (MonitorResult.status (mkStatus true "TERMINATED")), 1, 0) := by
  have h := monitor_first_query_immediate terminatedStatuses 30 3600 5 (by decide) (by decide)
    (by decide)
  exact ⟨h.1, h.2 rfl⟩

/-- Claim C8: for every monitor call with positive `poll_interval` and
`max_wait` against a run whose status is never terminal (any unrecognized
lifecycle state included), the loop terminates — any fuel covering
`max_wait / poll_interval + 1` iterations yields an outcome — and returns
`Timeout` after issuing at least `max_wait / poll_interval` (floor division)
status queries. -/
theorem monitor_times_out_without_terminal
    (g : Nat → Json) (p mw : Int) (fuel : Nat)
    (hp : 0 < p) (hmw : 0 < mw)
    (hnt : ∀ n, queryTerminal (g n) = false)
    (hfuel : mw ≤ (fuel : Int) * p) :
    ∃ q s : Nat, monitorModel g p mw fuel = (some MonitorResult.timeout, q, s) ∧
      mw / p ≤ (q : Int) := by
  obtain ⟨k, hk, heq, hb⟩ := monitorLoop_timeout g p mw hnt fuel 0 0 0 (by simpa using hfuel)
  refine ⟨k, k, by simpa [monitorModel] using heq, ?_⟩
  have h1 : mw ≤ (k : Int) * p := by simpa using hb
  calc mw / p ≤ ((k : Int) * p) / p := Int.ediv_le_ediv hp h1
    _ = (k : Int) := Int.mul_ediv_cancel _ (ne_of_gt hp)

/-- Witness for C8: polling a run stuck in an unrecognized lifecycle state
with interval 2 and budget 5 returns `Timeout` after at least
`5 / 2 = 2` queries. -/
theorem monitor_times_out_without_terminal_witness :
    ∃ q s : Nat, monitorModel mysteryStatuses 2 5 3 = (some MonitorResult.timeout, q, s) ∧
      (5 : Int) / 2 ≤ (q : Int) := by
  exact monitor_times_out_without_terminal mysteryStatuses 2 5 3 (by decide) (by decide)
    (fun n => rfl) (by norm_num)
